import Mathlib

/-!
Verification of the CSV import pipeline of the cabinet-product application.

The development shallowly embeds the two pieces of the pipeline that carry
real logic:

* the field mapper `mapToCabinetProduct`, which turns one raw CSV row
  (a header-keyed map of strings, as produced by the CSV parser with
  `dynamicTyping: false`) into one `CabinetProduct` record, and
* the batch importer `onImportRows`, which drives the mapped records
  through the external create-operation in fixed-size batches while
  tracking progress, the imported count and the status messages.

JavaScript semantics that the source relies on are modelled explicitly:
`||` on strings (empty string is falsy), `||` on numbers (0 and NaN are
falsy), `??` (nullish coalescing, modelled with `Option`), `parseFloat` /
`parseInt` (prefix parsing, `NaN` as `Option.none`), `Math.round`
(half towards +infinity), and the five regular expressions of the mapper,
which are executed by a small backtracking engine with JavaScript's
leftmost, lazy/greedy priority semantics.  JS numbers are modelled as
exact rationals; the concrete values exercised below are small decimals,
where binary floating point is exact, so no rounding behaviour is lost.
-/

namespace CsvImport

/-! ### JavaScript string and number primitives -/

/-- The characters matched by `\s` in a JS regex and trimmed by
`String.prototype.trim` (restricted to the ASCII range; the source data is
ASCII). -/
def jsSpaceChar (c : Char) : Bool :=
  c == ' ' || c == '\t' || c == '\n' || c == '\r' || c == '\x0b' || c == '\x0c'

/-- JS line terminators, the characters *not* matched by `.` in a regex. -/
def jsLineTerm (c : Char) : Bool :=
  c == '\n' || c == '\r' || c == '\u2028' || c == '\u2029'

/-- Value of a list of decimal digit characters. -/
def digitsToNat (ds : List Char) : ℕ :=
  ds.foldl (fun n c => 10 * n + (c.toNat - 48)) 0

/-- Does the first list start with the second? -/
def listStartsWith : List Char → List Char → Bool
  | _, [] => true
  | [], _ :: _ => false
  | a :: as, b :: bs => a == b && listStartsWith as bs

/-- Does the first list contain the second as a contiguous sublist?  This is
JS `String.prototype.includes` on the underlying characters. -/
def listContainsSub : List Char → List Char → Bool
  | cs, sub =>
    listStartsWith cs sub ||
      match cs with
      | [] => false
      | _ :: rest => listContainsSub rest sub

/-- JS `s.includes(sub)` (case sensitive substring test). -/
def jsIncludes (s sub : String) : Bool :=
  listContainsSub s.data sub.data

/-- JS `s.toLowerCase()` (ASCII range). -/
def jsToLower (s : String) : String :=
  String.mk (s.data.map Char.toLower)

/-- JS `s.split(sep)` for a one-character separator: `"" ↦ [""]`,
`"a,b" ↦ ["a", "b"]`, separators are not kept. -/
def splitOnCharAux (sep : Char) : List Char → List Char → List (List Char)
  | [], acc => [acc.reverse]
  | c :: rest, acc =>
    if c == sep then acc.reverse :: splitOnCharAux sep rest []
    else splitOnCharAux sep rest (c :: acc)

/-- JS `s.split(sep)` for a one-character separator. -/
def jsSplit (s : String) (sep : Char) : List String :=
  (splitOnCharAux sep s.data []).map String.mk

/-- JS `s.trim()` (ASCII whitespace). -/
def jsTrim (s : String) : String :=
  String.mk (((s.data.dropWhile jsSpaceChar).reverse.dropWhile jsSpaceChar).reverse)

/-- JS `a || b` on strings: the empty string is falsy. -/
def jsOrS (a b : String) : String :=
  if a = "" then b else a

/-- JS `a || b` on (finite) numbers: `0` is falsy. -/
def jsOrQ (a b : ℚ) : ℚ :=
  if a = 0 then b else a

/-- JS `parseFloat(e) || b`: `none` plays the role of `NaN`, which is falsy,
and `0` is falsy as well. -/
def jsOrParse (a : Option ℚ) (b : ℚ) : ℚ :=
  match a with
  | none => b
  | some q => jsOrQ q b

/-- JS `parseInt(e) || b` on integers. -/
def jsOrZ (a : Option ℤ) (b : ℤ) : ℤ :=
  match a with
  | none => b
  | some k => if k = 0 then b else k

/-- The exponent part of a JS `StrDecimalLiteral`: `e`/`E`, an optional sign
and at least one digit.  When no well-formed exponent follows, the value is
returned unchanged (the exponent characters are simply not part of the
parsed prefix). -/
def applyExp (q : ℚ) (cs : List Char) : ℚ :=
  match cs with
  | [] => q
  | e :: rest =>
    if e == 'e' || e == 'E' then
      let (neg, rest1) :=
        match rest with
        | '+' :: r => (false, r)
        | '-' :: r => (true, r)
        | _ => (false, rest)
      let ds := rest1.takeWhile Char.isDigit
      if ds.isEmpty then q
      else if neg then q / (10 : ℚ) ^ digitsToNat ds
      else q * (10 : ℚ) ^ digitsToNat ds
    else q

/-- JS `parseFloat`: skip leading whitespace, then parse the longest prefix
of the shape `[+|-] (digits [. digits] | . digits) [exponent]`; `NaN`
(here `none`) when no such prefix exists.  (`Infinity` literals do not occur
in the data and are not modelled.) -/
def jsParseFloat (s : String) : Option ℚ :=
  let cs := s.data.dropWhile jsSpaceChar
  let (neg, cs) :=
    match cs with
    | '-' :: r => (true, r)
    | '+' :: r => (false, r)
    | _ => (false, cs)
  let intDs := cs.takeWhile Char.isDigit
  let cs1 := cs.dropWhile Char.isDigit
  let val? : Option ℚ :=
    match cs1 with
    | '.' :: rest =>
      let fracDs := rest.takeWhile Char.isDigit
      let cs2 := rest.dropWhile Char.isDigit
      if intDs.isEmpty && fracDs.isEmpty then none
      else if fracDs.isEmpty then
        -- "digits." : the dot is consumed but contributes nothing
        some (applyExp (digitsToNat intDs : ℚ) cs2)
      else
        some (applyExp
          ((digitsToNat (intDs ++ fracDs) : ℚ) / (10 : ℚ) ^ fracDs.length) cs2)
    | _ =>
      if intDs.isEmpty then none
      else some (applyExp (digitsToNat intDs : ℚ) cs1)
  val?.map (fun q => if neg then -q else q)

/-- JS `parseInt` with the default radix 10: skip leading whitespace, an
optional sign, then at least one decimal digit; `NaN` (`none`) otherwise. -/
def jsParseInt (s : String) : Option ℤ :=
  let cs := s.data.dropWhile jsSpaceChar
  let (neg, cs) :=
    match cs with
    | '-' :: r => (true, r)
    | '+' :: r => (false, r)
    | _ => (false, cs)
  let ds := cs.takeWhile Char.isDigit
  if ds.isEmpty then none
  else if neg then some (-(digitsToNat ds : ℤ))
  else some (digitsToNat ds : ℤ)

/-- JS `Math.round`: halves round towards +infinity. -/
def jsRound (q : ℚ) : ℤ :=
  (q + 1/2).floor

/-! ### A small backtracking regex engine

Enough of JS regex semantics for the five patterns of the mapper: single
character classes, literals, lazy and greedy repetition over a class, an
optional (greedy) sub-pattern, and capturing groups.  A match attempt
enumerates the outcomes in exactly the priority order in which a JS engine
backtracks, so the head of the enumeration is the JS match. -/

/-- A single-character pattern: a literal, `\d`, `\s` or `.`. -/
inductive RAtom : Type
  | lit (c : Char)
  | digit
  | space
  | dot
deriving DecidableEq

/-- Does atom `a` match character `c`?  `ic` is the `i` flag. -/
def ratomMatches (ic : Bool) (a : RAtom) (c : Char) : Bool :=
  match a with
  | .lit l => if ic then l.toLower == c.toLower else l == c
  | .digit => c.isDigit
  | .space => jsSpaceChar c
  | .dot => !jsLineTerm c

/-- The fragment of regex syntax used by the component.  All repetition in
the source's patterns is over single-character classes, which keeps the
engine structurally recursive. -/
inductive RE : Type
  | eps
  | atom (a : RAtom)
  | seq (r1 r2 : RE)
  | starLazy (a : RAtom)
  | starGreedy (a : RAtom)
  | plusGreedy (a : RAtom)
  | optGreedy (r : RE)
  | group (n : ℕ) (r : RE)

/-- Suffixes reachable by `a*?`, laziest (shortest) first. -/
def lazyStarSuffixes (ic : Bool) (a : RAtom) : List Char → List (List Char)
  | [] => [[]]
  | c :: rest =>
    (c :: rest) ::
      (if ratomMatches ic a c then lazyStarSuffixes ic a rest else [])

/-- Suffixes reachable by `a*`, greediest (longest match) first. -/
def greedyStarSuffixes (ic : Bool) (a : RAtom) : List Char → List (List Char)
  | [] => [[]]
  | c :: rest =>
    if ratomMatches ic a c then greedyStarSuffixes ic a rest ++ [c :: rest]
    else [c :: rest]

/-- Suffixes reachable by `a+`, greediest first. -/
def greedyPlusSuffixes (ic : Bool) (a : RAtom) : List Char → List (List Char)
  | [] => []
  | c :: rest =>
    if ratomMatches ic a c then greedyStarSuffixes ic a rest else []

/-- All outcomes of matching `r` against a prefix of `cs`, in backtracking
priority order.  An outcome is the remaining suffix together with the
captured groups (group number paired with the captured characters). -/
def reMatch (ic : Bool) : RE → List Char → List (List Char × List (ℕ × List Char))
  | .eps, cs => [(cs, [])]
  | .atom a, cs =>
    match cs with
    | [] => []
    | c :: rest => if ratomMatches ic a c then [(rest, [])] else []
  | .seq r1 r2, cs =>
    (reMatch ic r1 cs).flatMap fun p1 =>
      (reMatch ic r2 p1.1).map fun p2 => (p2.1, p1.2 ++ p2.2)
  | .starLazy a, cs => (lazyStarSuffixes ic a cs).map fun rest => (rest, [])
  | .starGreedy a, cs => (greedyStarSuffixes ic a cs).map fun rest => (rest, [])
  | .plusGreedy a, cs => (greedyPlusSuffixes ic a cs).map fun rest => (rest, [])
  | .optGreedy r, cs => reMatch ic r cs ++ [(cs, [])]
  | .group n r, cs =>
    (reMatch ic r cs).map fun p =>
      (p.1, (n, cs.take (cs.length - p.1.length)) :: p.2)

/-- First (highest-priority) match of `r` at this exact position;
`endAnchored` encodes a trailing `$`. -/
def matchAt (ic endAnchored : Bool) (r : RE) (cs : List Char) :
    Option (List (ℕ × List Char)) :=
  let results := reMatch ic r cs
  let results := if endAnchored then results.filter (fun p => p.1.isEmpty) else results
  (results.head?).map (fun p => p.2)

/-- JS `String.prototype.match` with a non-global regex that is not anchored
at the start: the match at the leftmost position where one exists. -/
def searchMatch (ic endAnchored : Bool) (r : RE) : List Char → Option (List (ℕ × List Char))
  | [] => matchAt ic endAnchored r []
  | c :: rest =>
    match matchAt ic endAnchored r (c :: rest) with
    | some gs => some gs
    | none => searchMatch ic endAnchored r rest

/-- `m?.[n] || ""`: the content of capturing group `n`, the empty string when
the match failed or the group is absent (JS `undefined` is falsy). -/
def getGroup (m : Option (List (ℕ × List Char))) (n : ℕ) : String :=
  match m with
  | none => ""
  | some gs =>
    match gs.find? (fun p => p.1 == n) with
    | some p => String.mk p.2
    | none => ""

/-- A sequence of case-insensitive literal characters. -/
def reLits (s : String) : RE :=
  s.data.foldr (fun c r => .seq (.atom (.lit c)) r) .eps

/-! ### The five regexes of the mapper -/

/-- Line 148: the title pattern
`/^(.*?)\s+(.*?\s+.*?)\s+(.*?\s+Cabinet)\s+(.*)$/i`. -/
def nameRE : RE :=
  .seq (.group 1 (.starLazy .dot)) <|
  .seq (.plusGreedy .space) <|
  .seq (.group 2 (.seq (.starLazy .dot) (.seq (.plusGreedy .space) (.starLazy .dot)))) <|
  .seq (.plusGreedy .space) <|
  .seq (.group 3 (.seq (.starLazy .dot) (.seq (.plusGreedy .space) (reLits "Cabinet")))) <|
  .seq (.plusGreedy .space) (.group 4 (.starGreedy .dot))

/-- Line 154: the title size suffix pattern `/(\d+)W\s+X\s+(\d+)H$/i`. -/
def sizeRE : RE :=
  .seq (.group 1 (.plusGreedy .digit)) <|
  .seq (.atom (.lit 'W')) <|
  .seq (.plusGreedy .space) <|
  .seq (.atom (.lit 'X')) <|
  .seq (.plusGreedy .space) <|
  .seq (.group 2 (.plusGreedy .digit)) (.atom (.lit 'H'))

/-- `\d+(?:\.\d+)?`, the numeric group of the descriptive-field patterns. -/
def decimalRE : RE :=
  .seq (.plusGreedy .digit) (.optGreedy (.seq (.atom (.lit '.')) (.plusGreedy .digit)))

/-- Lines 160-161: `/Width:\s*(\d+(?:\.\d+)?)/i` (and the same for
`Height:`), expressed over the key prefix. -/
def keyNumRE (key : String) : RE :=
  .seq (reLits key) (.seq (.starGreedy .space) (.group 1 decimalRE))

/-- Line 162: `/Door:\s*(\d+)/i`. -/
def doorCountRE : RE :=
  .seq (reLits "Door:") (.seq (.starGreedy .space) (.group 1 (.plusGreedy .digit)))

/-- `name.match(nameRE)`: the pattern is anchored at both ends. -/
def matchName (name : String) : Option (List (ℕ × List Char)) :=
  matchAt true true nameRE name.data

/-- `name.match(sizeRE)`: anchored at the end only. -/
def matchSize (name : String) : Option (List (ℕ × List Char)) :=
  searchMatch true true sizeRE name.data

/-- `shortDesc.match(/Width:.../i)`. -/
def matchWidth (sd : String) : Option (List (ℕ × List Char)) :=
  searchMatch true false (keyNumRE "Width:") sd.data

/-- `shortDesc.match(/Height:.../i)`. -/
def matchHeight (sd : String) : Option (List (ℕ × List Char)) :=
  searchMatch true false (keyNumRE "Height:") sd.data

/-- `shortDesc.match(/Door:.../i)`. -/
def matchDoor (sd : String) : Option (List (ℕ × List Char)) :=
  searchMatch true false doorCountRE sd.data

/-! ### Data model -/

/-- One parsed CSV row: a header-keyed map of strings.  Only the columns the
mapper reads are retained; a column that is missing from a short row is the
empty string, which is observationally identical to JS `undefined` in every
use the component makes of a row field (truthiness tests, `|| ''`,
`=== '1'`). -/
structure RawRow where
  SKU : String := ""
  Name : String := ""
  /-- Column `Short description`. -/
  shortDescription : String := ""
  Tags : String := ""
  /-- Column `Regular price`. -/
  regularPrice : String := ""
  /-- Column `Sale price`. -/
  salePrice : String := ""
  /-- Column `Weight (lbs)`. -/
  weightLbs : String := ""
  Images : String := ""
  Categories : String := ""
  Published : String := ""
  /-- Column `Meta: assembly_fee` (the `extractMeta` convention). -/
  metaAssemblyFee : String := ""
  /-- Column `Meta: assembly_cost`. -/
  metaAssemblyCost : String := ""
deriving DecidableEq

/-- The canonical product record built by the mapper (the fields of the
`CreateCabinetProduct` input populated by this component). -/
structure CabinetProduct where
  wSKU : String
  vSKU : String
  brand : String
  doorStyle : String
  discount : ℚ
  costFactor : ℚ
  assemblyFee : ℚ
  assemblyCost : ℚ
  retailPrice : ℚ
  discountPrice : ℚ
  height : ℚ
  width : ℚ
  weight : ℚ
  species : String
  imagePath : String
  categories : String
  tags : String
  publish : Bool
deriving DecidableEq

/-! ### The field mapper (`mapToCabinetProduct`, lines 141-205) -/

/-- Lines 185-186: `(row.SKU || '').replace(..., 'W-')` (and `V-`) with the
start-anchored, case sensitive pattern `^AZ-`, so it rewrites exactly a
leading `AZ-`. -/
def skuReplace (target : String) (s : String) : String :=
  if listStartsWith s.data "AZ-".data then target ++ String.mk (s.data.drop 3)
  else s

/-- Line 148: `nameParts`. -/
def rowNameParts (row : RawRow) : Option (List (ℕ × List Char)) :=
  matchName (jsOrS row.Name "")

/-- Line 149: `nameParts?.[1] || 'Forevermark'`. -/
def rowBrand (row : RawRow) : String :=
  jsOrS (getGroup (rowNameParts row) 1) "Forevermark"

/-- Line 150: `nameParts?.[2] || ''`. -/
def rowCollectionStyle (row : RawRow) : String :=
  jsOrS (getGroup (rowNameParts row) 2) ""

/-- Line 151: the title-derived door style,
`collectionStyle.includes('Shaker') ? 'Shaker' : collectionStyle.split(' ').pop() || 'Shaker'`. -/
def rowTitleDoorStyle (row : RawRow) : String :=
  let cs := rowCollectionStyle row
  if jsIncludes cs "Shaker" then "Shaker"
  else jsOrS ((jsSplit cs ' ').getLastD "") "Shaker"

/-- Line 154: `sizeMatch`. -/
def rowSizeMatch (row : RawRow) : Option (List (ℕ × List Char)) :=
  matchSize (jsOrS row.Name "")

/-- Line 155: `parseFloat(sizeMatch?.[1] || '0')`.  The argument is either a
nonempty digit string or `'0'`, so the parse never yields `NaN`; `getD 0`
is only there for totality (and agrees with the source behaviour downstream,
where the value is re-parsed under `|| 0` on line 163). -/
def rowTitleWidth (row : RawRow) : ℚ :=
  (jsParseFloat (jsOrS (getGroup (rowSizeMatch row) 1) "0")).getD 0

/-- Line 156: `parseFloat(sizeMatch?.[2] || '0')`. -/
def rowTitleHeight (row : RawRow) : ℚ :=
  (jsParseFloat (jsOrS (getGroup (rowSizeMatch row) 2) "0")).getD 0

/-- Line 160: `widthMatch` over `shortDesc = row['Short description'] || ''`. -/
def rowWidthMatch (row : RawRow) : Option (List (ℕ × List Char)) :=
  matchWidth (jsOrS row.shortDescription "")

/-- Line 161: `heightMatch`. -/
def rowHeightMatch (row : RawRow) : Option (List (ℕ × List Char)) :=
  matchHeight (jsOrS row.shortDescription "")

/-- Line 162: `doorMatch`. -/
def rowDoorMatch (row : RawRow) : Option (List (ℕ × List Char)) :=
  matchDoor (jsOrS row.shortDescription "")

/-- Line 163: `width = parseFloat(widthMatch?.[1] || width.toString()) || 0`.
When the descriptive field matched, its (nonempty) group is parsed under
`|| 0`; otherwise the previous width — a nonnegative integer-valued number,
whose `toString`/`parseFloat` round trip is the identity — is kept under
`|| 0`. -/
def rowWidth (row : RawRow) : ℚ :=
  let g := getGroup (rowWidthMatch row) 1
  if g = "" then jsOrQ (rowTitleWidth row) 0
  else jsOrParse (jsParseFloat g) 0

/-- Line 164: the same resolution for the height. -/
def rowHeight (row : RawRow) : ℚ :=
  let g := getGroup (rowHeightMatch row) 1
  if g = "" then jsOrQ (rowTitleHeight row) 0
  else jsOrParse (jsParseFloat g) 0

/-- Line 165: `doors = parseInt(doorMatch?.[1] || '1') || 1`. -/
def rowDoors (row : RawRow) : ℤ :=
  jsOrZ (jsParseInt (jsOrS (getGroup (rowDoorMatch row) 1) "1")) 1

/-- Line 168: `tags = (row.Tags || '').toLowerCase()`. -/
def rowTags (row : RawRow) : String :=
  jsToLower (jsOrS row.Tags "")

/-- Line 169: the tag-derived door style,
`tags.includes('double-door') ? 'Double Door' : (tags.includes('single-door') ? 'Single Door' : \x7bdoors\x7d Door)`. -/
def rowTagDoorStyle (row : RawRow) : String :=
  let tags := rowTags row
  if jsIncludes tags "double-door" then "Double Door"
  else if jsIncludes tags "single-door" then "Single Door"
  else toString (rowDoors row) ++ " Door"

/-- Line 172: `parseFloat(row['Regular price'] || row['Sale price'] || '0') || 0`. -/
def rowRetailPrice (row : RawRow) : ℚ :=
  jsOrParse (jsParseFloat (jsOrS (jsOrS row.regularPrice row.salePrice) "0")) 0

/-- Line 175: `parseFloat(row['Weight (lbs)'] || '0') || 0`. -/
def rowWeight (row : RawRow) : ℚ :=
  jsOrParse (jsParseFloat (jsOrS row.weightLbs "0")) 0

/-- Line 178: `row.Images ? (row.Images.split(',')[0] || '').trim() : ''`. -/
def rowImagePath (row : RawRow) : String :=
  if row.Images = "" then ""
  else jsTrim (jsOrS ((jsSplit row.Images ',').headD "") "")

/-- Line 181: `parseFloat(this.extractMeta(row, 'assembly_fee') || '0') || 0`. -/
def rowAssemblyFee (row : RawRow) : ℚ :=
  jsOrParse (jsParseFloat (jsOrS row.metaAssemblyFee "0")) 0

/-- Line 182: `parseFloat(this.extractMeta(row, 'assembly_cost') || '0') || 0`. -/
def rowAssemblyCost (row : RawRow) : ℚ :=
  jsOrParse (jsParseFloat (jsOrS row.metaAssemblyCost "0")) 0

/-- Lines 184-203: the record built for one (SKU-bearing) row. -/
def mapRow (row : RawRow) : CabinetProduct :=
  { wSKU := skuReplace "W-" (jsOrS row.SKU "")
    vSKU := skuReplace "V-" (jsOrS row.SKU "")
    brand := jsOrS (rowBrand row) ""
    doorStyle := jsOrS (rowTagDoorStyle row) (jsOrS (rowTitleDoorStyle row) "")
    discount := 0
    costFactor := 1
    assemblyFee := rowAssemblyFee row
    assemblyCost := rowAssemblyCost row
    retailPrice := rowRetailPrice row
    discountPrice := 0
    height := rowHeight row
    width := rowWidth row
    weight := rowWeight row
    species := "MDF"
    imagePath := rowImagePath row
    categories := jsOrS row.Categories ""
    tags := jsOrS row.Tags ""
    publish := row.Published == "1" }

/-- Lines 144-205: `mapToCabinetProduct` filters out the rows whose `SKU`
field is empty or missing (falsy) and maps the rest. -/
def mapToCabinetProduct (rows : List RawRow) : List CabinetProduct :=
  (rows.filter fun row => row.SKU != "").map mapRow

/-! ### The batch importer (`onImportRows`, lines 290-346) -/

/-- The component state touched by the importer (lines 57-87).  `none` for a
message field is JS `null`. -/
structure ImportSession where
  parsedRows : List RawRow := []
  mappedRows : List CabinetProduct := []
  previewRows : List CabinetProduct := []
  isParsing : Bool := false
  isDragOver : Bool := false
  isImporting : Bool := false
  importProgress : ℤ := 0
  errorMessage : Option String := none
  successMessage : Option String := none
  importedCount : ℕ := 0
deriving DecidableEq

/-- The import-time defaults configuration, `this.importForm.value`
(lines 97-100).  `none` models a cleared (`null`) control value. -/
structure ImportDefaults where
  defaultPublish : Option Bool := none
  defaultDiscount : Option ℚ := none
deriving DecidableEq

/-- `this.importForm.invalid` (lines 97-100): the only validators are
`Validators.min(0)` and `Validators.max(100)` on `defaultDiscount`, and both
treat an empty (`null`) control value as valid. -/
def importFormInvalid (d : ImportDefaults) : Bool :=
  match d.defaultDiscount with
  | none => false
  | some q => decide (q < 0) || decide (100 < q)

/-- Lines 310-318: the input built for one record before the create call:
`discountPrice = (row.retailPrice || 0) * (1 - defaults.defaultDiscount / 100)`,
`publish = defaults.defaultPublish ?? row.publish`, and
`discount = defaults.defaultDiscount ?? (row.discount || 0)`.
Nullish coalescing is `Option.getD`; in the `discountPrice` formula a `null`
discount coerces to `0` in JS arithmetic, hence `getD 0` there. -/
def mkImportInput (defaults : ImportDefaults) (row : CabinetProduct) : CabinetProduct :=
  { row with
    publish := defaults.defaultPublish.getD row.publish
    discount := defaults.defaultDiscount.getD (jsOrQ row.discount 0)
    discountPrice := jsOrQ row.retailPrice 0 * (1 - defaults.defaultDiscount.getD 0 / 100) }

/-- Line 302: `const batchSize = 10`. -/
def batchSize : ℕ := 10

/-- Lines 305-306: the contiguous slices `mappedRows.slice(i, i + batchSize)`
visited by the loop `for (i = 0; i < n; i += batchSize)`.  The source fixes
the size at `batchSize = 10`; it is a parameter here so the batching laws
can be stated for every positive size, as the specification does.  (With
size `0` the source loop would not terminate; the model returns `[]`.) -/
def chunkList : ℕ → List CabinetProduct → List (List CabinetProduct)
  | _, [] => []
  | 0, _ :: _ => []
  | b + 1, x :: xs => (x :: xs).take (b + 1) :: chunkList (b + 1) (xs.drop b)
termination_by _ l => l.length
decreasing_by simp [List.length_drop]; omega

/-- Lines 305-338: the batch loop.  One iteration maps the batch through
`mkImportInput`, issues the create-operation for each input (`true` =
success, `false` = a failure that was caught and turned into `null` on
lines 323-327), counts the non-null results into `importedCount` and sets
`importProgress = Math.round((i + batch.length) / n * 100)`.  The function
also returns the full sequence of create-operation inputs in call order and
the trace of progress values, one per settled batch; `await Promise.all`
followed by the next iteration is modelled by this sequential recursion. -/
def importLoop (create : CabinetProduct → Bool) (defaults : ImportDefaults) (n : ℕ) :
    ℕ → ImportSession → List (List CabinetProduct) →
    ImportSession × List CabinetProduct × List ℤ
  | _, s, [] => (s, [], [])
  | done, s, batch :: rest =>
    let inputs := batch.map (mkImportInput defaults)
    let results := inputs.map create
    let okCount := (results.filter (fun r => r == true)).length
    let s1 := { s with
      importedCount := s.importedCount + okCount
      importProgress := jsRound (((done + batch.length : ℕ) : ℚ) / (n : ℚ) * 100) }
    let out := importLoop create defaults n (done + batch.length) s1 rest
    (out.1, inputs ++ out.2.1, s1.importProgress :: out.2.2)

/-- Line 292: the guard message. -/
def invalidStateMsg : String := "Invalid form or no rows to import."

/-- Line 342: the full-success message. -/
def fullSuccessMsg (k : ℕ) : String :=
  "Successfully imported " ++ toString k ++ " rows!"

/-- Line 344: the partial-success message. -/
def partialSuccessMsg (k n : ℕ) : String :=
  "Imported " ++ toString k ++ " of " ++ toString n ++ " rows. Check console for errors."

/-- Lines 290-346: `onImportRows`.  Returns the final session state, the
sequence of create-operation inputs in call order, and the progress trace.
The form guard, the state reset, the batch loop and the terminal
success/partial message all follow the source. -/
def onImportRows (b : ℕ) (s : ImportSession) (defaults : ImportDefaults)
    (create : CabinetProduct → Bool) :
    ImportSession × List CabinetProduct × List ℤ :=
  if importFormInvalid defaults || s.mappedRows.isEmpty then
    ({ s with errorMessage := some invalidStateMsg }, [], [])
  else
    let s1 := { s with
      isImporting := true
      importProgress := 0
      importedCount := 0
      errorMessage := none
      successMessage := none }
    let n := s.mappedRows.length
    let out := importLoop create defaults n 0 s1 (chunkList b s.mappedRows)
    let s2 := { out.1 with isImporting := false }
    let s3 :=
      if s2.importedCount = n then
        { s2 with successMessage := some (fullSuccessMsg s2.importedCount) }
      else
        { s2 with errorMessage := some (partialSuccessMsg s2.importedCount n) }
    (s3, out.2.1, out.2.2)

/-! ### Concrete data used by the scenarios, counterexamples and witnesses -/

/-- The row of specification Scenario 1. -/
def rowScenario1 : RawRow :=
  { SKU := "AZ-123", Name := "Acme Shaker Wall Cabinet 9W X 30H" }

/-- A row without any tag marker whose title pattern matches and yields the
style token `Oak` (the last word of the collection-style group). -/
def rowNoTag : RawRow :=
  { SKU := "S1", Name := "a b Oak d Cabinet e" }

/-- A row whose `Regular price` is nonempty but not numeric while its
`Sale price` is a valid number. -/
def rowBadPrice : RawRow :=
  { SKU := "S2", regularPrice := "abc", salePrice := "5" }

/-- A minimal valid row: only the identifier is populated. -/
def rowPlain : RawRow :=
  { SKU := "A" }

/-- A row whose identifier does not carry the `AZ-` source prefix. -/
def rowOtherSKU : RawRow :=
  { SKU := "B-7" }

/-- A fully concrete product record (as the mapper would produce, with a
retail price of 50). -/
def sampleProduct : CabinetProduct :=
  { wSKU := "W-1", vSKU := "V-1", brand := "Forevermark", doorStyle := "Shaker"
    discount := 0, costFactor := 1, assemblyFee := 0, assemblyCost := 0
    retailPrice := 50, discountPrice := 0, height := 30, width := 9, weight := 0
    species := "MDF", imagePath := "", categories := "", tags := "", publish := false }

/-- A session holding the 25 mapped records of specification Scenario 4. -/
def session25 : ImportSession :=
  { mappedRows := List.replicate 25 sampleProduct }

/-- A session holding five mapped records. -/
def session5 : ImportSession :=
  { mappedRows := List.replicate 5 sampleProduct }

/-! ### Supporting lemmas -/

theorem jsRound_eq (q : ℚ) : jsRound q = ⌊q + 1/2⌋ := by
  rw [jsRound, Rat.floor_def, Rat.floor_def']

theorem jsRound_mono {a b : ℚ} (h : a ≤ b) : jsRound a ≤ jsRound b := by
  rw [jsRound_eq, jsRound_eq]
  exact Int.floor_mono (by linarith)

theorem jsOrS_empty (s : String) : jsOrS s "" = s := by
  unfold jsOrS
  split <;> simp_all

theorem jsOrQ_zero (q : ℚ) : jsOrQ q 0 = q := by
  unfold jsOrQ
  split <;> simp_all

theorem rowTagDoorStyle_ne_empty (row : RawRow) : rowTagDoorStyle row ≠ "" := by
  unfold rowTagDoorStyle
  dsimp only
  split
  · decide
  split
  · decide
  · intro h
    have hlen := congrArg String.length h
    rw [String.length_append] at hlen
    have h5 : (" Door" : String).length = 5 := rfl
    have h0 : ("" : String).length = 0 := rfl
    omega

theorem mapRow_doorStyle (row : RawRow) :
    (mapRow row).doorStyle = rowTagDoorStyle row := by
  have hd : (mapRow row).doorStyle
      = jsOrS (rowTagDoorStyle row) (jsOrS (rowTitleDoorStyle row) "") := rfl
  rw [hd]
  unfold jsOrS
  split
  · exact absurd (by assumption) (rowTagDoorStyle_ne_empty row)
  · rfl

theorem mapRow_wSKU (row : RawRow) :
    (mapRow row).wSKU = skuReplace "W-" row.SKU := by
  show skuReplace "W-" (jsOrS row.SKU "") = skuReplace "W-" row.SKU
  rw [jsOrS_empty]

theorem mapRow_vSKU (row : RawRow) :
    (mapRow row).vSKU = skuReplace "V-" row.SKU := by
  show skuReplace "V-" (jsOrS row.SKU "") = skuReplace "V-" row.SKU
  rw [jsOrS_empty]

/-! ### Claims about the field mapper -/

/-- C1 (counterexample): the claim asserts that for some row with no tag
marker the title-derived style token is the final `doorStyle`.  On the code
the tag-derived value is never empty — when no marker exists it is the
door-count label — so the title token is bypassed even when it exists: for
`rowNoTag` (no `Tags` at all, title token `Oak`) the mapper yields
`"1 Door"`, not `"Oak"`. -/
theorem claim1_counterexample :
    rowNoTag.Tags = "" ∧
    rowTitleDoorStyle rowNoTag = "Oak" ∧
    (mapToCabinetProduct [rowNoTag]).map (fun p => p.doorStyle) = ["1 Door"] ∧
    ("1 Door" : String) ≠ "Oak" :=
  ⟨rfl, by decide, by decide, by decide⟩

/-- C1 (amended): the mapper resolves the final `doorStyle` entirely from
the tag-derived value: a `double-door` marker forces `"Double Door"`, else a
`single-door` marker forces `"Single Door"`, else the door-count label
`"<n> Door"` is used.  Because the door-count label is never empty, the
title-derived style token and the fixed default `"Shaker"` are dead
fallbacks on line 188 and never become the final `doorStyle`. -/
theorem claim1_doorStyle_precedence (row : RawRow) :
    (mapRow row).doorStyle = rowTagDoorStyle row ∧
    (jsIncludes (rowTags row) "double-door" = true →
      (mapRow row).doorStyle = "Double Door") ∧
    (jsIncludes (rowTags row) "double-door" = false →
      jsIncludes (rowTags row) "single-door" = true →
      (mapRow row).doorStyle = "Single Door") ∧
    (jsIncludes (rowTags row) "double-door" = false →
      jsIncludes (rowTags row) "single-door" = false →
      (mapRow row).doorStyle = toString (rowDoors row) ++ " Door") := by
  refine ⟨mapRow_doorStyle row, ?_, ?_, ?_⟩ <;>
    · intros
      rw [mapRow_doorStyle]
      unfold rowTagDoorStyle
      simp_all

/-- C1 (witness for the amended claim at a concrete row). -/
theorem claim1_doorStyle_precedence_witness :
    jsIncludes (rowTags rowNoTag) "double-door" = false ∧
    jsIncludes (rowTags rowNoTag) "single-door" = false ∧
    (mapRow rowNoTag).doorStyle = toString (rowDoors rowNoTag) ++ " Door" :=
  ⟨by decide, by decide,
    (claim1_doorStyle_precedence rowNoTag).2.2.2 (by decide) (by decide)⟩

/-- C2 (counterexample): the claim asserts that a non-numeric, nonempty
`Regular price` falls through to a numeric `Sale price`.  On the code the
string-level `||` chain selects the first *nonempty* column before parsing,
so `rowBadPrice` (`Regular price = "abc"`, `Sale price = "5"`) maps to
`retailPrice = 0`, not `5`. -/
theorem claim2_counterexample :
    rowBadPrice.regularPrice = "abc" ∧
    rowBadPrice.salePrice = "5" ∧
    jsParseFloat "abc" = none ∧
    jsParseFloat "5" = some 5 ∧
    (mapToCabinetProduct [rowBadPrice]).map (fun p => p.retailPrice) = [0] ∧
    ((0 : ℚ) ≠ 5) :=
  ⟨rfl, rfl, by decide, by decide, by decide, by decide⟩

/-- C2 (amended): `retailPrice` is the parse of the *first nonempty* value
among `Regular price` then `Sale price` (with `0` both when the two columns
are empty and when that first nonempty value does not parse as a number);
parseability plays no role in the column selection. -/
theorem claim2_retailPrice_first_nonempty (row : RawRow) :
    (mapRow row).retailPrice = rowRetailPrice row ∧
    (row.regularPrice ≠ "" →
      rowRetailPrice row = jsOrParse (jsParseFloat row.regularPrice) 0) ∧
    (row.regularPrice = "" → row.salePrice ≠ "" →
      rowRetailPrice row = jsOrParse (jsParseFloat row.salePrice) 0) ∧
    (row.regularPrice = "" → row.salePrice = "" →
      rowRetailPrice row = 0) := by
  refine ⟨rfl, ?_, ?_, ?_⟩
  · intro h
    simp [rowRetailPrice, jsOrS, h]
  · intro h1 h2
    simp [rowRetailPrice, jsOrS, h1, h2]
  · intro h1 h2
    simp [rowRetailPrice, jsOrS, h1, h2]
    decide

/-- C2 (witness for the amended claim at a concrete row). -/
theorem claim2_retailPrice_first_nonempty_witness :
    rowBadPrice.regularPrice ≠ "" ∧
    rowRetailPrice rowBadPrice = jsOrParse (jsParseFloat rowBadPrice.regularPrice) 0 :=
  ⟨by decide, (claim2_retailPrice_first_nonempty rowBadPrice).2.1 (by decide)⟩

/-- C8: `primarySKU` (`wSKU`) and `secondarySKU` (`vSKU`) are the same
deterministic prefix-substitution function of the row's single `SKU` string,
differing only in the fixed target prefixes `W-` and `V-`; and Scenario 1:
`{SKU: "AZ-123", Name: "Acme Shaker Wall Cabinet 9W X 30H"}` maps to
`wSKU = "W-123"`, `vSKU = "V-123"`, `width = 9`, `height = 30`. -/
theorem claim8_sku_derivation :
    (∀ row : RawRow,
      (mapRow row).wSKU = skuReplace "W-" row.SKU ∧
      (mapRow row).vSKU = skuReplace "V-" row.SKU) ∧
    (mapToCabinetProduct [rowScenario1]).map
        (fun p => (p.wSKU, p.vSKU, p.width, p.height))
      = [("W-123", "V-123", 9, 30)] := by
  constructor
  · intro row
    exact ⟨mapRow_wSKU row, mapRow_vSKU row⟩
  · decide

/-- C9: no canonical record is ever produced from a row whose SKU field is
empty or missing; such rows are silently dropped, and every output record
comes from a source row with a nonempty identifier. -/
theorem claim9_sku_filter :
    (∀ (rows : List RawRow) (row : RawRow), row.SKU = "" →
      mapToCabinetProduct (row :: rows) = mapToCabinetProduct rows) ∧
    (∀ (rows : List RawRow) (rec : CabinetProduct),
      rec ∈ mapToCabinetProduct rows →
      ∃ row ∈ rows, row.SKU ≠ "" ∧ rec = mapRow row) := by
  constructor
  · intro rows row h
    simp [mapToCabinetProduct, List.filter, h]
  · intro rows rec hrec
    rcases List.mem_map.mp hrec with ⟨row, hmem, hmap⟩
    rcases List.mem_filter.mp hmem with ⟨hrow, hsku⟩
    exact ⟨row, hrow, by simpa using hsku, hmap.symm⟩

/-- C9 (witness): a concrete empty-SKU row is dropped and a concrete
record's source is recovered. -/
theorem claim9_sku_filter_witness :
    (({ SKU := "" , Name := "x" } : RawRow).SKU = "" ∧
      mapToCabinetProduct [{ SKU := "" , Name := "x" }, rowPlain]
        = mapToCabinetProduct [rowPlain]) ∧
    (mapRow rowPlain ∈ mapToCabinetProduct [rowPlain] ∧
      ∃ row ∈ [rowPlain], row.SKU ≠ "" ∧ mapRow rowPlain = mapRow row) :=
  ⟨⟨rfl, claim9_sku_filter.1 [rowPlain] { SKU := "" , Name := "x" } rfl⟩,
    by decide,
    claim9_sku_filter.2 [rowPlain] (mapRow rowPlain) (by decide)⟩

/-- C10: for a row whose nonempty SKU does not start with the source prefix
`AZ-`, the prefix substitution leaves the string unchanged, so `wSKU` and
`vSKU` both equal the source SKU. -/
theorem claim10_no_prefix_identity (row : RawRow) (hne : row.SKU ≠ "")
    (hpre : listStartsWith row.SKU.data "AZ-".data = false) :
    (mapRow row).wSKU = row.SKU ∧ (mapRow row).vSKU = row.SKU := by
  rw [mapRow_wSKU, mapRow_vSKU]
  unfold skuReplace
  rw [hpre]
  simp

/-- C10 (witness at `SKU = "B-7"`). -/
theorem claim10_no_prefix_identity_witness :
    rowOtherSKU.SKU ≠ "" ∧
    listStartsWith rowOtherSKU.SKU.data "AZ-".data = false ∧
    ((mapRow rowOtherSKU).wSKU = rowOtherSKU.SKU ∧
      (mapRow rowOtherSKU).vSKU = rowOtherSKU.SKU) :=
  ⟨by decide, by decide,
    claim10_no_prefix_identity rowOtherSKU (by decide) (by decide)⟩

/-! ### Batching lemmas -/

theorem chunkList_flatten (b : ℕ) (l : List CabinetProduct) :
    0 < b → (chunkList b l).flatten = l := by
  induction b, l using chunkList.induct with
  | case1 b => intro _; simp [chunkList]
  | case2 x xs => intro h; omega
  | case3 b x xs ih =>
    intro h
    rw [chunkList]
    have hdrop : xs.drop b = (x :: xs).drop (b + 1) := (List.drop_succ_cons).symm
    simp only [List.flatten_cons, ih h]
    rw [hdrop, List.take_append_drop]

theorem chunkList_length (b : ℕ) (l : List CabinetProduct) :
    0 < b → (chunkList b l).length = (l.length + b - 1) / b := by
  induction b, l using chunkList.induct with
  | case1 b =>
    intro h
    simp only [chunkList, List.length_nil, Nat.zero_add, List.length]
    exact (Nat.div_eq_of_lt (by omega)).symm
  | case2 x xs => intro h; omega
  | case3 b x xs ih =>
    intro _
    rw [chunkList]
    rw [List.length_cons, ih (by omega), List.length_drop, List.length_cons]
    rcases le_or_lt b xs.length with hb2 | hb2
    · have h1 : xs.length - b + (b + 1) - 1 = xs.length := by omega
      have h2 : xs.length + 1 + (b + 1) - 1 = xs.length + (b + 1) := by omega
      rw [h1, h2, Nat.add_div_right _ (by omega)]
    · have h1 : xs.length - b + (b + 1) - 1 = b := by omega
      have h3 : (xs.length + 1 + (b + 1) - 1) / (b + 1) = 1 :=
        Nat.div_eq_of_lt_le (by omega) (by omega)
      rw [h1, Nat.div_eq_of_lt (by omega), h3]

theorem chunkList_mem (b : ℕ) (l : List CabinetProduct) :
    0 < b → ∀ c ∈ chunkList b l, c.length ≤ b ∧ c ≠ [] := by
  induction b, l using chunkList.induct with
  | case1 b => intro _ c hc; simp [chunkList] at hc
  | case2 x xs => intro h; omega
  | case3 b x xs ih =>
    intro h c hc
    rw [chunkList] at hc
    rcases List.mem_cons.mp hc with rfl | hc
    · constructor
      · simp [List.length_take]
      · simp [List.take_succ_cons]
    · exact ih h c hc

theorem chunkList_eq_nil (b : ℕ) (l : List CabinetProduct) (hb : 0 < b)
    (h : chunkList b l = []) : l = [] := by
  cases l with
  | nil => rfl
  | cons x xs =>
    cases b with
    | zero => omega
    | succ b => rw [chunkList] at h; simp at h

theorem chunkList_dropLast (b : ℕ) (l : List CabinetProduct) :
    0 < b → ∀ c ∈ (chunkList b l).dropLast, c.length = b := by
  induction b, l using chunkList.induct with
  | case1 b => intro _ c hc; simp [chunkList] at hc
  | case2 x xs => intro h; omega
  | case3 b x xs ih =>
    intro h c hc
    rw [chunkList] at hc
    rcases hrec : chunkList (b + 1) (xs.drop b) with _ | ⟨y, ys⟩
    · rw [hrec] at hc; simp at hc
    · rw [hrec] at hc
      rw [List.dropLast_cons₂] at hc
      rcases List.mem_cons.mp hc with rfl | hc2
      · have hne : xs.drop b ≠ [] := by
          intro hnil
          rw [hnil] at hrec
          simp [chunkList] at hrec
        have hlen : b < xs.length := by
          by_contra hle
          exact hne (List.drop_eq_nil_of_le (by omega))
        simp [List.length_take]
        omega
      · exact ih h c (by rw [hrec]; exact hc2)

theorem chunkList_take_flatten (b : ℕ) (l : List CabinetProduct) :
    0 < b → ∀ k, (((chunkList b l).take k).flatten).length = min (k * b) l.length := by
  induction b, l using chunkList.induct with
  | case1 b => intro _ k; simp [chunkList]
  | case2 x xs => intro h; omega
  | case3 b x xs ih =>
    intro h k
    cases k with
    | zero => simp
    | succ k =>
      rw [chunkList, List.take_succ_cons, List.flatten_cons, List.length_append,
        ih h k, List.length_take, List.length_drop, List.length_cons, Nat.succ_mul]
      generalize k * (b + 1) = t
      omega

/-! ### Import loop lemmas -/

theorem importLoop_calls (create : CabinetProduct → Bool) (defaults : ImportDefaults)
    (n : ℕ) (chunks : List (List CabinetProduct)) :
    ∀ (done : ℕ) (s : ImportSession),
      (importLoop create defaults n done s chunks).2.1
        = chunks.flatten.map (mkImportInput defaults) := by
  induction chunks with
  | nil => intro done s; rfl
  | cons batch rest ih =>
    intro done s
    rw [importLoop]
    simp only [List.flatten_cons, List.map_append]
    rw [ih]

theorem importLoop_count (create : CabinetProduct → Bool) (defaults : ImportDefaults)
    (n : ℕ) (chunks : List (List CabinetProduct)) :
    ∀ (done : ℕ) (s : ImportSession),
      (importLoop create defaults n done s chunks).1.importedCount
        = s.importedCount + (chunks.flatten.map (mkImportInput defaults)).countP create := by
  induction chunks with
  | nil => intro done s; simp [importLoop]
  | cons batch rest ih =>
    intro done s
    rw [importLoop]
    simp only [List.flatten_cons, List.map_append, List.countP_append]
    rw [ih]
    have hcomp : (fun r => r == true) ∘ create = create := by
      funext x
      simp [Function.comp]
    have hcount : (((batch.map (mkImportInput defaults)).map create).filter
          (fun r => r == true)).length
        = (batch.map (mkImportInput defaults)).countP create := by
      rw [← List.countP_eq_length_filter, List.countP_map, hcomp]
    simp only [hcount]
    omega

theorem importLoop_progress_length (create : CabinetProduct → Bool)
    (defaults : ImportDefaults) (n : ℕ) (chunks : List (List CabinetProduct)) :
    ∀ (done : ℕ) (s : ImportSession),
      (importLoop create defaults n done s chunks).2.2.length = chunks.length := by
  induction chunks with
  | nil => intro done s; rfl
  | cons batch rest ih =>
    intro done s
    rw [importLoop]
    simp only [List.length_cons]
    rw [ih]

theorem importLoop_progress_get (create : CabinetProduct → Bool)
    (defaults : ImportDefaults) (n : ℕ) (chunks : List (List CabinetProduct)) :
    ∀ (done : ℕ) (s : ImportSession) (k : ℕ), k < chunks.length →
      (importLoop create defaults n done s chunks).2.2[k]?
        = some (jsRound (((done + ((chunks.take (k + 1)).flatten).length : ℕ) : ℚ)
            / (n : ℚ) * 100)) := by
  induction chunks with
  | nil => intro done s k hk; simp at hk
  | cons batch rest ih =>
    intro done s k hk
    cases k with
    | zero =>
      rw [importLoop]
      simp [List.take_succ_cons]
    | succ k =>
      rw [importLoop]
      simp only [List.getElem?_cons_succ]
      rw [ih _ _ k (by simpa using hk)]
      congr 2
      simp only [List.take_succ_cons, List.flatten_cons, List.length_append]
      push_cast
      ring

theorem importLoop_preserves (create : CabinetProduct → Bool) (defaults : ImportDefaults)
    (n : ℕ) (chunks : List (List CabinetProduct)) :
    ∀ (done : ℕ) (s : ImportSession),
      (importLoop create defaults n done s chunks).1.errorMessage = s.errorMessage ∧
      (importLoop create defaults n done s chunks).1.successMessage = s.successMessage := by
  induction chunks with
  | nil => intro done s; exact ⟨rfl, rfl⟩
  | cons batch rest ih =>
    intro done s
    rw [importLoop]
    exact ih _ _

theorem progressEntry_mono (n : ℕ) {a c : ℕ} (h : a ≤ c) :
    jsRound ((a : ℚ) / (n : ℚ) * 100) ≤ jsRound ((c : ℚ) / (n : ℚ) * 100) := by
  apply jsRound_mono
  have hac : (a : ℚ) ≤ (c : ℚ) := by exact_mod_cast h
  have hn : (0 : ℚ) ≤ (n : ℚ) := by positivity
  exact mul_le_mul_of_nonneg_right (div_le_div_of_nonneg_right hac hn) (by norm_num)

theorem jsRound_full (n : ℕ) (hn : 0 < n) : jsRound ((n : ℚ) / (n : ℚ) * 100) = 100 := by
  have hne : ((n : ℚ)) ≠ 0 := by positivity
  rw [div_self hne, jsRound_eq]
  norm_num

/-- The valid-path unfolding of `onImportRows` (the guard of line 291 does
not fire). -/
theorem onImportRows_eq_loop (b : ℕ) (s : ImportSession) (defaults : ImportDefaults)
    (create : CabinetProduct → Bool) (hform : importFormInvalid defaults = false)
    (hne : s.mappedRows.isEmpty = false) :
    onImportRows b s defaults create =
      (let n := s.mappedRows.length
       let out := importLoop create defaults n 0
         ({ s with
            isImporting := true
            importProgress := 0
            importedCount := 0
            errorMessage := none
            successMessage := none }) (chunkList b s.mappedRows)
       let s2 := { out.1 with isImporting := false }
       let s3 :=
         if s2.importedCount = n then
           { s2 with successMessage := some (fullSuccessMsg s2.importedCount) }
         else
           { s2 with errorMessage := some (partialSuccessMsg s2.importedCount n) }
       (s3, out.2.1, out.2.2)) := by
  rw [onImportRows, hform, hne]
  rfl

theorem getElem_of_getElem? {α : Type _} {l : List α} {k : ℕ} (h : k < l.length) {v : α}
    (hv : l[k]? = some v) : l[k] = v := by
  have h2 := List.getElem?_eq_getElem h
  rw [hv] at h2
  exact (Option.some.inj h2).symm

/-- The progress trace of a valid run: one entry per batch, and the `k`-th
entry is `Math.round(processed / n * 100)` where `processed` counts the rows
of the first `k + 1` batches. -/
theorem onImportRows_progress (b : ℕ) (s : ImportSession) (defaults : ImportDefaults)
    (create : CabinetProduct → Bool) (hform : importFormInvalid defaults = false)
    (hne : s.mappedRows ≠ []) :
    (onImportRows b s defaults create).2.2.length = (chunkList b s.mappedRows).length ∧
    ∀ k, k < (chunkList b s.mappedRows).length →
      (onImportRows b s defaults create).2.2[k]?
        = some (jsRound (((((chunkList b s.mappedRows).take (k + 1)).flatten).length : ℚ)
            / (s.mappedRows.length : ℚ) * 100)) := by
  have hemp : s.mappedRows.isEmpty = false := by simp [List.isEmpty_iff, hne]
  rw [onImportRows_eq_loop b s defaults create hform hemp]
  dsimp only
  constructor
  · rw [importLoop_progress_length]
  · intro k hk
    rw [importLoop_progress_get create defaults _ _ 0 _ k hk]
    congr 2
    push_cast
    ring

/-- The imported count and terminal messages of a valid run, in terms of the
number of records whose create-operation succeeded. -/
theorem onImportRows_final (b : ℕ) (s : ImportSession) (defaults : ImportDefaults)
    (create : CabinetProduct → Bool) (hform : importFormInvalid defaults = false)
    (hb : 0 < b) (hne : s.mappedRows ≠ []) :
    (onImportRows b s defaults create).1.importedCount
        = (s.mappedRows.map (mkImportInput defaults)).countP create ∧
    ((s.mappedRows.map (mkImportInput defaults)).countP create = s.mappedRows.length →
      (onImportRows b s defaults create).1.successMessage
          = some (fullSuccessMsg ((s.mappedRows.map (mkImportInput defaults)).countP create)) ∧
      (onImportRows b s defaults create).1.errorMessage = none) ∧
    ((s.mappedRows.map (mkImportInput defaults)).countP create ≠ s.mappedRows.length →
      (onImportRows b s defaults create).1.errorMessage
          = some (partialSuccessMsg ((s.mappedRows.map (mkImportInput defaults)).countP create)
              s.mappedRows.length) ∧
      (onImportRows b s defaults create).1.successMessage = none) := by
  have hemp : s.mappedRows.isEmpty = false := by simp [List.isEmpty_iff, hne]
  rw [onImportRows_eq_loop b s defaults create hform hemp]
  dsimp only
  rw [importLoop_count, chunkList_flatten b s.mappedRows hb]
  rw [(importLoop_preserves create defaults s.mappedRows.length (chunkList b s.mappedRows) 0 _).1,
    (importLoop_preserves create defaults s.mappedRows.length (chunkList b s.mappedRows) 0 _).2]
  dsimp only
  simp only [Nat.zero_add]
  split
  case isTrue hif => exact ⟨rfl, fun _ => ⟨rfl, rfl⟩, fun hc => absurd hif hc⟩
  case isFalse hif => exact ⟨rfl, fun hc => absurd hc hif, fun _ => ⟨rfl, rfl⟩⟩


/-! ### Claims about the batch importer -/

/-- C3: for every mapped record and every defaults configuration with a
defined discount `d` in `[0, 100]` and retail price `p ≥ 0`, the input
handed to the create-operation has `discountPrice = p * (1 - d/100)`, its
`publish` field is the configured override when that override is defined
(and the record's own value otherwise), and its `discount` field is the
defined override `d`; moreover every create call receives exactly
`mkImportInput defaults` of the corresponding mapped record. -/
theorem claim3_discount_and_overrides (defaults : ImportDefaults) (d : ℚ)
    (row : CabinetProduct)
    (hd : defaults.defaultDiscount = some d) (h0 : 0 ≤ d) (h100 : d ≤ 100)
    (hp : 0 ≤ row.retailPrice) :
    (mkImportInput defaults row).discountPrice = row.retailPrice * (1 - d / 100) ∧
    (∀ p, defaults.defaultPublish = some p → (mkImportInput defaults row).publish = p) ∧
    (defaults.defaultPublish = none → (mkImportInput defaults row).publish = row.publish) ∧
    (mkImportInput defaults row).discount = d ∧
    (∀ (b : ℕ) (s : ImportSession) (create : CabinetProduct → Bool), 0 < b →
      (onImportRows b s defaults create).2.1 = s.mappedRows.map (mkImportInput defaults)) := by
  have hform : importFormInvalid defaults = false := by
    simp [importFormInvalid, hd]
    exact ⟨h0, h100⟩
  refine ⟨?_, ?_, ?_, ?_, ?_⟩
  · show jsOrQ row.retailPrice 0 * (1 - defaults.defaultDiscount.getD 0 / 100)
        = row.retailPrice * (1 - d / 100)
    rw [jsOrQ_zero, hd]
    rfl
  · intro p hp2
    show defaults.defaultPublish.getD row.publish = p
    rw [hp2]
    rfl
  · intro hp2
    show defaults.defaultPublish.getD row.publish = row.publish
    rw [hp2]
    rfl
  · show defaults.defaultDiscount.getD (jsOrQ row.discount 0) = d
    rw [hd]
    rfl
  · intro b s create hb
    by_cases hrows : s.mappedRows = []
    · simp [onImportRows, hform, hrows]
    · have hemp : s.mappedRows.isEmpty = false := by
        simp [List.isEmpty_iff, hrows]
      rw [onImportRows_eq_loop b s defaults create hform hemp]
      dsimp only
      rw [importLoop_calls, chunkList_flatten b s.mappedRows hb]

/-- C3 (witness at `d = 20`, `p = 50`). -/
theorem claim3_discount_and_overrides_witness :
    ({ defaultPublish := some true, defaultDiscount := some 20 }
        : ImportDefaults).defaultDiscount = some 20 ∧
    (0 : ℚ) ≤ 20 ∧ (20 : ℚ) ≤ 100 ∧ (0 : ℚ) ≤ sampleProduct.retailPrice ∧
    ((mkImportInput { defaultPublish := some true, defaultDiscount := some 20 }
        sampleProduct).discountPrice
      = sampleProduct.retailPrice * (1 - 20 / 100) ∧
    (∀ p, ({ defaultPublish := some true, defaultDiscount := some 20 }
        : ImportDefaults).defaultPublish = some p →
      (mkImportInput { defaultPublish := some true, defaultDiscount := some 20 }
        sampleProduct).publish = p) ∧
    (({ defaultPublish := some true, defaultDiscount := some 20 }
        : ImportDefaults).defaultPublish = none →
      (mkImportInput { defaultPublish := some true, defaultDiscount := some 20 }
        sampleProduct).publish = sampleProduct.publish) ∧
    (mkImportInput { defaultPublish := some true, defaultDiscount := some 20 }
        sampleProduct).discount = 20 ∧
    (∀ (b : ℕ) (s : ImportSession) (create : CabinetProduct → Bool), 0 < b →
      (onImportRows b s { defaultPublish := some true, defaultDiscount := some 20 }
          create).2.1
        = s.mappedRows.map
            (mkImportInput { defaultPublish := some true, defaultDiscount := some 20 }))) :=
  ⟨rfl, by decide, by decide, by decide,
    claim3_discount_and_overrides
      { defaultPublish := some true, defaultDiscount := some 20 } 20 sampleProduct
      rfl (by decide) (by decide) (by decide)⟩

/-- C4: a valid run over `n > 0` records with batch size `b > 0` issues
exactly `n` create-operation calls, which are precisely the records of the
contiguous batches `mappedRows.slice(i, i + b)` in order; there are
`ceil(n/b)` batches, every batch is nonempty of size at most `b`, and every
batch except possibly the last has size exactly `b`.  Sequencing across
batches (`await Promise.all` between consecutive batches) is modelled by
the sequential recursion of `importLoop`, which the call order reflects. -/
theorem claim4_batching (b : ℕ) (s : ImportSession) (defaults : ImportDefaults)
    (create : CabinetProduct → Bool) (hb : 0 < b) (hne : s.mappedRows ≠ [])
    (hform : importFormInvalid defaults = false) :
    (onImportRows b s defaults create).2.1.length = s.mappedRows.length ∧
    (onImportRows b s defaults create).2.1
      = (chunkList b s.mappedRows).flatten.map (mkImportInput defaults) ∧
    (chunkList b s.mappedRows).flatten = s.mappedRows ∧
    (chunkList b s.mappedRows).length = (s.mappedRows.length + b - 1) / b ∧
    (∀ c ∈ chunkList b s.mappedRows, c.length ≤ b ∧ c ≠ []) ∧
    (∀ c ∈ (chunkList b s.mappedRows).dropLast, c.length = b) := by
  have hemp : s.mappedRows.isEmpty = false := by
    simp [List.isEmpty_iff, hne]
  have hcalls : (onImportRows b s defaults create).2.1
      = (chunkList b s.mappedRows).flatten.map (mkImportInput defaults) := by
    rw [onImportRows_eq_loop b s defaults create hform hemp]
    dsimp only
    rw [importLoop_calls]
  refine ⟨?_, hcalls, chunkList_flatten b s.mappedRows hb,
    chunkList_length b s.mappedRows hb, chunkList_mem b s.mappedRows hb,
    chunkList_dropLast b s.mappedRows hb⟩
  rw [hcalls, List.length_map, chunkList_flatten b s.mappedRows hb]

/-- C4 (witness: 5 records, batch size 3). -/
theorem claim4_batching_witness :
    0 < 3 ∧ session5.mappedRows ≠ [] ∧ importFormInvalid { } = false ∧
    ((onImportRows 3 session5 { } (fun _ => true)).2.1.length
        = session5.mappedRows.length ∧
    (onImportRows 3 session5 { } (fun _ => true)).2.1
      = (chunkList 3 session5.mappedRows).flatten.map (mkImportInput { }) ∧
    (chunkList 3 session5.mappedRows).flatten = session5.mappedRows ∧
    (chunkList 3 session5.mappedRows).length = (session5.mappedRows.length + 3 - 1) / 3 ∧
    (∀ c ∈ chunkList 3 session5.mappedRows, c.length ≤ 3 ∧ c ≠ []) ∧
    (∀ c ∈ (chunkList 3 session5.mappedRows).dropLast, c.length = 3)) :=
  ⟨by decide, by decide, rfl,
    claim4_batching 3 session5 { } (fun _ => true) (by decide) (by decide) rfl⟩

/-- C5: in a valid run over `n > 0` records the `k`-th progress value is
`Math.round(processed_k / n * 100)` where `processed_k` is the number of
records in the first `k + 1` batches; the trace is monotonically
non-decreasing and its last entry is exactly `100`; and for 25 records with
batch size 10 the trace is `[40, 80, 100]` (Scenario 4). -/
theorem claim5_progress (b : ℕ) (s : ImportSession) (defaults : ImportDefaults)
    (create : CabinetProduct → Bool) (hb : 0 < b) (hne : s.mappedRows ≠ [])
    (hform : importFormInvalid defaults = false) :
    (∀ k, k < (onImportRows b s defaults create).2.2.length →
      (onImportRows b s defaults create).2.2[k]?
        = some (jsRound (((((chunkList b s.mappedRows).take (k + 1)).flatten).length : ℚ)
            / (s.mappedRows.length : ℚ) * 100))) ∧
    List.Chain' (· ≤ ·) (onImportRows b s defaults create).2.2 ∧
    (onImportRows b s defaults create).2.2.getLast? = some 100 ∧
    (onImportRows 10 session25 { } (fun _ => true)).2.2 = [40, 80, 100] := by
  obtain ⟨hplen, hpget⟩ := onImportRows_progress b s defaults create hform hne
  have hnpos : 0 < s.mappedRows.length := List.length_pos.mpr hne
  have hget : ∀ k, k < (onImportRows b s defaults create).2.2.length →
      (onImportRows b s defaults create).2.2[k]?
        = some (jsRound (((((chunkList b s.mappedRows).take (k + 1)).flatten).length : ℚ)
            / (s.mappedRows.length : ℚ) * 100)) := by
    intro k hk
    rw [hplen] at hk
    exact hpget k hk
  refine ⟨hget, ?_, ?_, ?_⟩
  · rw [List.chain'_iff_get]
    intro i hi
    have h1 : i < (onImportRows b s defaults create).2.2.length := by omega
    have h2 : i + 1 < (onImportRows b s defaults create).2.2.length := by omega
    rw [List.get_eq_getElem, List.get_eq_getElem]
    simp only [Fin.val_mk]
    rw [getElem_of_getElem? h1 (hget i h1), getElem_of_getElem? h2 (hget (i + 1) h2)]
    apply progressEntry_mono
    rw [chunkList_take_flatten b s.mappedRows hb (i + 1),
      chunkList_take_flatten b s.mappedRows hb (i + 2)]
    have hmul : (i + 1) * b ≤ (i + 2) * b := Nat.mul_le_mul (by omega) (le_refl b)
    omega
  · have hchne : chunkList b s.mappedRows ≠ [] := by
      intro hc
      apply hne
      rw [← chunkList_flatten b s.mappedRows hb, hc]
      rfl
    have hL : 0 < (chunkList b s.mappedRows).length := List.length_pos.mpr hchne
    rw [List.getLast?_eq_getElem?, hplen]
    have hidx : (chunkList b s.mappedRows).length - 1 < (chunkList b s.mappedRows).length := by
      omega
    rw [hpget _ hidx]
    congr 1
    have htake : (chunkList b s.mappedRows).length - 1 + 1
        = (chunkList b s.mappedRows).length := by omega
    rw [htake, List.take_length, chunkList_flatten b s.mappedRows hb]
    exact jsRound_full s.mappedRows.length hnpos
  · have hform25 : importFormInvalid { } = false := rfl
    have hne25 : session25.mappedRows ≠ [] := by simp [session25]
    obtain ⟨hplen25, hpget25⟩ :=
      onImportRows_progress 10 session25 { } (fun _ => true) hform25 hne25
    have hlen25 : session25.mappedRows.length = 25 := by simp [session25]
    have hchlen : (chunkList 10 session25.mappedRows).length = 3 := by
      rw [chunkList_length 10 session25.mappedRows (by omega), hlen25]
    have hplen3 : (onImportRows 10 session25 { } (fun _ => true)).2.2.length = 3 := by
      rw [hplen25, hchlen]
    apply List.ext_getElem
    · rw [hplen3]; rfl
    intro i hi1 hi2
    have hi3 : i < 3 := by rw [hplen3] at hi1; exact hi1
    have hig : i < (chunkList 10 session25.mappedRows).length := by rw [hchlen]; omega
    have hv := hpget25 i hig
    rw [chunkList_take_flatten 10 session25.mappedRows (by omega) (i + 1), hlen25] at hv
    rw [getElem_of_getElem? hi1 hv]
    interval_cases i <;> norm_num [jsRound_eq]

/-- C5 (witness: 5 records, batch size 3). -/
theorem claim5_progress_witness :
    0 < 3 ∧ session5.mappedRows ≠ [] ∧ importFormInvalid { } = false ∧
    ((∀ k, k < (onImportRows 3 session5 { } (fun _ => true)).2.2.length →
      (onImportRows 3 session5 { } (fun _ => true)).2.2[k]?
        = some (jsRound (((((chunkList 3 session5.mappedRows).take (k + 1)).flatten).length : ℚ)
            / (session5.mappedRows.length : ℚ) * 100))) ∧
    List.Chain' (· ≤ ·) (onImportRows 3 session5 { } (fun _ => true)).2.2 ∧
    (onImportRows 3 session5 { } (fun _ => true)).2.2.getLast? = some 100 ∧
    (onImportRows 10 session25 { } (fun _ => true)).2.2 = [40, 80, 100]) :=
  ⟨by decide, by decide, rfl,
    claim5_progress 3 session5 { } (fun _ => true) (by decide) (by decide) rfl⟩

/-- C6: in a valid run every record is passed to the create-operation
regardless of failures (a failed call is a `null` result, never an abort:
the call count always equals `n`); the final imported count is the number
of records whose create-operation succeeded, hence at most `n`, with
equality exactly when every call succeeded; a shortfall produces the
partial-success error report with `(imported, total)` while full success
produces the success report. -/
theorem claim6_partial_failure (b : ℕ) (s : ImportSession) (defaults : ImportDefaults)
    (create : CabinetProduct → Bool) (hb : 0 < b) (hne : s.mappedRows ≠ [])
    (hform : importFormInvalid defaults = false) :
    (onImportRows b s defaults create).2.1.length = s.mappedRows.length ∧
    (onImportRows b s defaults create).1.importedCount
      = (s.mappedRows.map (mkImportInput defaults)).countP create ∧
    (onImportRows b s defaults create).1.importedCount ≤ s.mappedRows.length ∧
    ((onImportRows b s defaults create).1.importedCount = s.mappedRows.length ↔
      ∀ r ∈ s.mappedRows, create (mkImportInput defaults r) = true) ∧
    ((onImportRows b s defaults create).1.importedCount < s.mappedRows.length →
      (onImportRows b s defaults create).1.errorMessage
        = some (partialSuccessMsg ((onImportRows b s defaults create).1.importedCount)
            s.mappedRows.length) ∧
      (onImportRows b s defaults create).1.successMessage = none) ∧
    ((onImportRows b s defaults create).1.importedCount = s.mappedRows.length →
      (onImportRows b s defaults create).1.successMessage
        = some (fullSuccessMsg s.mappedRows.length) ∧
      (onImportRows b s defaults create).1.errorMessage = none) := by
  obtain ⟨hcnt, hfull, hpart⟩ := onImportRows_final b s defaults create hform hb hne
  have hemp : s.mappedRows.isEmpty = false := by simp [List.isEmpty_iff, hne]
  have hlen : (onImportRows b s defaults create).2.1.length = s.mappedRows.length := by
    rw [onImportRows_eq_loop b s defaults create hform hemp]
    dsimp only
    rw [importLoop_calls, List.length_map, chunkList_flatten b s.mappedRows hb]
  have hle : (s.mappedRows.map (mkImportInput defaults)).countP create
      ≤ s.mappedRows.length := by
    calc (s.mappedRows.map (mkImportInput defaults)).countP create
        ≤ (s.mappedRows.map (mkImportInput defaults)).length := List.countP_le_length _
      _ = s.mappedRows.length := List.length_map _ _
  refine ⟨hlen, hcnt, by rw [hcnt]; exact hle, ?_, ?_, ?_⟩
  · rw [hcnt]
    rw [show s.mappedRows.length = (s.mappedRows.map (mkImportInput defaults)).length from
      (List.length_map _ _).symm]
    rw [List.countP_eq_length]
    constructor
    · intro H r hr
      exact H _ (List.mem_map_of_mem _ hr)
    · intro H x hx
      rcases List.mem_map.mp hx with ⟨r, hr, rfl⟩
      exact H r hr
  · intro hlt
    have hne2 : (s.mappedRows.map (mkImportInput defaults)).countP create
        ≠ s.mappedRows.length := by rw [← hcnt]; omega
    obtain ⟨he, hs⟩ := hpart hne2
    exact ⟨by rw [he, hcnt], hs⟩
  · intro heq2
    have hc2 : (s.mappedRows.map (mkImportInput defaults)).countP create
        = s.mappedRows.length := by rw [← hcnt]; exact heq2
    obtain ⟨hs, he⟩ := hfull hc2
    exact ⟨by rw [hs, hc2], he⟩

/-- C6 (witness: 5 records, batch size 3, create always succeeding). -/
theorem claim6_partial_failure_witness :
    0 < 3 ∧ session5.mappedRows ≠ [] ∧ importFormInvalid { } = false ∧
    ((onImportRows 3 session5 { } (fun _ => true)).2.1.length
        = session5.mappedRows.length ∧
    (onImportRows 3 session5 { } (fun _ => true)).1.importedCount
      = (session5.mappedRows.map (mkImportInput { })).countP (fun _ => true) ∧
    (onImportRows 3 session5 { } (fun _ => true)).1.importedCount
      ≤ session5.mappedRows.length ∧
    ((onImportRows 3 session5 { } (fun _ => true)).1.importedCount
        = session5.mappedRows.length ↔
      ∀ r ∈ session5.mappedRows, (fun _ => true) (mkImportInput { } r) = true) ∧
    ((onImportRows 3 session5 { } (fun _ => true)).1.importedCount
        < session5.mappedRows.length →
      (onImportRows 3 session5 { } (fun _ => true)).1.errorMessage
        = some (partialSuccessMsg
            ((onImportRows 3 session5 { } (fun _ => true)).1.importedCount)
            session5.mappedRows.length) ∧
      (onImportRows 3 session5 { } (fun _ => true)).1.successMessage = none) ∧
    ((onImportRows 3 session5 { } (fun _ => true)).1.importedCount
        = session5.mappedRows.length →
      (onImportRows 3 session5 { } (fun _ => true)).1.successMessage
        = some (fullSuccessMsg session5.mappedRows.length) ∧
      (onImportRows 3 session5 { } (fun _ => true)).1.errorMessage = none)) :=
  ⟨by decide, by decide, rfl,
    claim6_partial_failure 3 session5 { } (fun _ => true) (by decide) (by decide) rfl⟩

/-- C7: when the mapped-record sequence is empty or the defaults
configuration is invalid (a defined discount outside `[0, 100]`), the
importer refuses to run: it only sets the single descriptive error message,
issues no create-operation calls, produces no progress updates, and leaves
the progress value, imported count and every other session field
unchanged. -/
theorem claim7_precondition_guard (b : ℕ) (s : ImportSession) (defaults : ImportDefaults)
    (create : CabinetProduct → Bool)
    (h : s.mappedRows = [] ∨ importFormInvalid defaults = true) :
    onImportRows b s defaults create
      = ({ s with errorMessage := some invalidStateMsg }, [], []) ∧
    (onImportRows b s defaults create).1.importProgress = s.importProgress ∧
    (onImportRows b s defaults create).1.importedCount = s.importedCount ∧
    (onImportRows b s defaults create).1.mappedRows = s.mappedRows ∧
    (onImportRows b s defaults create).1.parsedRows = s.parsedRows ∧
    (onImportRows b s defaults create).1.previewRows = s.previewRows ∧
    (onImportRows b s defaults create).1.isImporting = s.isImporting ∧
    (onImportRows b s defaults create).1.isParsing = s.isParsing ∧
    (onImportRows b s defaults create).1.successMessage = s.successMessage ∧
    (onImportRows b s defaults create).1.errorMessage = some invalidStateMsg := by
  have hcond : (importFormInvalid defaults || s.mappedRows.isEmpty) = true := by
    rcases h with h | h <;> simp [h]
  have heq : onImportRows b s defaults create
      = ({ s with errorMessage := some invalidStateMsg }, [], []) := by
    rw [onImportRows, hcond]
    rfl
  exact ⟨heq, by rw [heq], by rw [heq], by rw [heq], by rw [heq], by rw [heq],
    by rw [heq], by rw [heq], by rw [heq], by rw [heq]⟩

/-- C7 (witness: an out-of-range discount of 150 with a nonempty record
list, so the refusal comes from the invalid configuration alone). -/
theorem claim7_precondition_guard_witness :
    (session5.mappedRows = [] ∨
      importFormInvalid { defaultDiscount := some 150 } = true) ∧
    (onImportRows 3 session5 { defaultDiscount := some 150 } (fun _ => true)
        = ({ session5 with errorMessage := some invalidStateMsg }, [], []) ∧
    (onImportRows 3 session5 { defaultDiscount := some 150 }
        (fun _ => true)).1.importProgress = session5.importProgress ∧
    (onImportRows 3 session5 { defaultDiscount := some 150 }
        (fun _ => true)).1.importedCount = session5.importedCount ∧
    (onImportRows 3 session5 { defaultDiscount := some 150 }
        (fun _ => true)).1.mappedRows = session5.mappedRows ∧
    (onImportRows 3 session5 { defaultDiscount := some 150 }
        (fun _ => true)).1.parsedRows = session5.parsedRows ∧
    (onImportRows 3 session5 { defaultDiscount := some 150 }
        (fun _ => true)).1.previewRows = session5.previewRows ∧
    (onImportRows 3 session5 { defaultDiscount := some 150 }
        (fun _ => true)).1.isImporting = session5.isImporting ∧
    (onImportRows 3 session5 { defaultDiscount := some 150 }
        (fun _ => true)).1.isParsing = session5.isParsing ∧
    (onImportRows 3 session5 { defaultDiscount := some 150 }
        (fun _ => true)).1.successMessage = session5.successMessage ∧
    (onImportRows 3 session5 { defaultDiscount := some 150 }
        (fun _ => true)).1.errorMessage = some invalidStateMsg) :=
  ⟨Or.inr (by decide),
    claim7_precondition_guard 3 session5 { defaultDiscount := some 150 }
      (fun _ => true) (Or.inr (by decide))⟩


end CsvImport
